import Mathlib

set_option maxHeartbeats 1000000

/-!
Shallow embedding of the semantic-analysis layer of the schema compiler:
the type-alias resolver (`resolve_alias` / `resolve_aliases` from
`transform/ast_to_dml/db.rs` and `types.rs`, which contain identical copies
of those functions) and the datasource loader
(`transform/ast_to_dml/datasource_loader.rs`).

Machine-level details that do not affect the verified properties are
abstracted: source spans are single numbers, hash maps over unique keys are
association lists, and Rust panics (`unreachable`, the unimplemented branch,
index out of bounds) are explicit outcome constructors. Recursion in
`resolve_alias` is embedded with explicit fuel; a theorem below shows the
fuel never runs out and the result is fuel-independent beyond the bound
claimed by the specification.
-/

namespace PrismaCore

/-- Source spans, abstracted to a single offset number. -/
abbrev Span := Nat

/-- Structured diagnostics: one constructor per `DatamodelError` construction
used by the embedded code. -/
inductive DatamodelError where
  | validation (message : String) (span : Span)
  | typeNotFound (typeName : String) (span : Span)
  | sourceArgumentNotFound (argName : String) (sourceName : String) (span : Span)
  | functionalEvaluation (message : String) (span : Span)
  | sourceValidation (message : String) (sourceName : String) (span : Span)
  | environmentFunctionalEvaluation (varName : String) (span : Span)
  | typeMismatch (expected : String) (span : Span)
  | datasourceProviderNotKnown (providerName : String) (span : Span)
  | connectorError (message : String) (span : Span)
  deriving DecidableEq

/-- An argument value in a configuration block: a string literal, an env()
reference, a boolean constant, or an array of strings. -/
inductive ArgValue where
  | strVal (s : String)
  | envVal (varName : String)
  | boolVal (b : Bool)
  | arrayVal (xs : List String)
  deriving DecidableEq

/-- A named argument of a configuration block, with its span
(the `ValueValidator` of the Rust code wraps the value and the span). -/
structure Arg where
  name : String
  value : ArgValue
  span : Span
  deriving DecidableEq

/-- A datasource configuration block (`ast::SourceConfig`). -/
structure SourceConfig where
  name : String
  properties : List Arg
  documentation : Option String
  span : Span
  deriving DecidableEq

/-- `ast::FieldType`: a supported type name, or an explicitly unsupported
type. Each carries the span returned by `FieldType::span()`. -/
inductive FieldType where
  | supported (name : String) (span : Span)
  | unsupported (descr : String) (span : Span)
  deriving DecidableEq

/-- `ast::Field`: name, type and span. Type alias declarations are
represented as fields by the AST. -/
structure Field where
  name : String
  fieldType : FieldType
  span : Span
  deriving DecidableEq

/-- A model declaration with its fields. -/
structure Model where
  name : String
  fields : List Field
  deriving DecidableEq

/-- An enum declaration. -/
structure EnumDecl where
  name : String
  deriving DecidableEq

/-- `ast::Top`: a top-level declaration. -/
inductive Top where
  | typeAlias (f : Field)
  | model (m : Model)
  | enum (e : EnumDecl)
  | generator (name : String)
  | source (cfg : SourceConfig)
  deriving DecidableEq

/-- `ast::SchemaAst`: the list of top-level declarations; `TopId` is the
position in this list. -/
structure SchemaAst where
  tops : List Top
  deriving DecidableEq

/-- The `Names` symbol table (consumed read-only, built upstream): a map from
declaration name to `TopId`, embedded as an association list. -/
structure Names where
  tops : List (String × Nat)
  deriving DecidableEq

/-- `names.tops.get(name)` on the association list. -/
def Names.get (names : Names) (name : String) : Option Nat :=
  (names.tops.find? (fun p => p.1 == name)).map (fun p => p.2)

/-- `Top::as_type_alias`. -/
def Top.as_type_alias : Top → Option Field
  | Top.typeAlias f => some f
  | _ => none

/-- `Top::as_model`. -/
def Top.as_model : Top → Option Model
  | Top.model m => some m
  | _ => none

def BUILT_IN_SCALARS : List String :=
  ["Int", "BigInt", "Float", "Boolean", "String", "DateTime", "Json", "Bytes", "Decimal"]

/-- `FullyResolvedType` (the `types.rs` version, which has the `Model`
variant; the `db.rs` version is the same enum with `Model` commented out). -/
inductive FullyResolvedType where
  | model (id : Nat)
  | enum (id : Nat)
  | scalar
  | unsupported
  | unknown
  deriving DecidableEq

/-- Outcome of one `resolve_alias` call: normal return, or one of the two
ways the Rust code can panic (the `unreachable` arm for generator/datasource
tops, and indexing the schema out of bounds). -/
inductive ResolveOutcome where
  | ok (t : FullyResolvedType)
  | panicUnreachable
  | panicIndexOutOfBounds
  deriving DecidableEq

/-- The message built by the recursive-type diagnostic:
format string "Recursive type definitions are not allowed. Recursive path
was: \x7b\x7d -> \x7b\x7d." applied to the joined traversal stack and the
root alias name. -/
def recursive_type_message (traversed : List String) (rootName : String) : String :=
  "Recursive type definitions are not allowed. Recursive path was: " ++
    String.intercalate (" -> ") traversed ++ " -> " ++ rootName ++ "."

/-- `resolve_alias` from `db.rs` lines 91-151 (= `types.rs` lines 91-151),
with explicit fuel for the recursion and explicit panic outcomes. The
returned list holds the diagnostics pushed by this call, in push order. -/
def resolve_alias : Nat → SchemaAst → Names → Nat → Field → List String →
    Option (ResolveOutcome × List DatamodelError)
  | 0, _, _, _, _, _ => none
  | fuel + 1, schema, names, rootAliasId, rootTypeAlias, traversed =>
    match rootTypeAlias.fieldType with
    | FieldType.unsupported _ _ => some (ResolveOutcome.ok FullyResolvedType.unsupported, [])
    | FieldType.supported typeName typeSpan =>
      if BUILT_IN_SCALARS.contains typeName then
        some (ResolveOutcome.ok FullyResolvedType.scalar, [])
      else
        match names.get typeName with
        | none =>
          some (ResolveOutcome.ok FullyResolvedType.unknown,
            [DatamodelError.typeNotFound typeName typeSpan])
        | some referencedId =>
          match schema.tops.get? referencedId with
          | none => some (ResolveOutcome.panicIndexOutOfBounds, [])
          | some (Top.typeAlias referencedAlias) =>
            if referencedId == rootAliasId || traversed.contains referencedAlias.name then
              some (ResolveOutcome.ok FullyResolvedType.unknown,
                [DatamodelError.validation
                  (recursive_type_message traversed rootTypeAlias.name) rootTypeAlias.span])
            else
              resolve_alias fuel schema names rootAliasId rootTypeAlias
                (traversed ++ [referencedAlias.name])
          | some (Top.model _) =>
            some (ResolveOutcome.ok FullyResolvedType.unknown,
              [DatamodelError.validation
                ("Only scalar types can be used for defining custom types.") typeSpan])
          | some (Top.enum _) =>
            some (ResolveOutcome.ok (FullyResolvedType.enum referencedId), [])
          | some (Top.generator _) => some (ResolveOutcome.panicUnreachable, [])
          | some (Top.source _) => some (ResolveOutcome.panicUnreachable, [])

/-- The names of all declared type aliases, in source order. -/
def aliasNames (schema : SchemaAst) : List String :=
  schema.tops.filterMap (fun t => (Top.as_type_alias t).map (fun f => f.name))

/-- The number of declared type aliases. -/
def numTypeAliases (schema : SchemaAst) : Nat := (aliasNames schema).length

/-- The `(TopId, Field)` pairs of the type alias declarations, in source
order: the iteration of `resolve_aliases`. -/
def type_aliases (schema : SchemaAst) : List (Nat × Field) :=
  schema.tops.enum.filterMap (fun p => (Top.as_type_alias p.2).map (fun f => (p.1, f)))

/-- The ways `resolve_aliases` can abort: a propagated panic, or fuel
exhaustion of the embedding (shown impossible below). -/
inductive RPanic where
  | unreachableTop
  | indexOutOfBounds
  | fuelExhausted
  deriving DecidableEq

/-- The loop of `resolve_aliases`: resolve each alias with a traversal stack
cleared to `[]`, accumulating the resolution map (as an ordered association
list over the unique `TopId` keys) and the pushed diagnostics. -/
def resolve_aliases_loop (schema : SchemaAst) (names : Names) (fuel : Nat) :
    List (Nat × Field) → Except RPanic (List (Nat × FullyResolvedType) × List DatamodelError)
  | [] => Except.ok ([], [])
  | (aliasId, typeAlias) :: rest =>
    match resolve_alias fuel schema names aliasId typeAlias [] with
    | none => Except.error RPanic.fuelExhausted
    | some (ResolveOutcome.panicUnreachable, _) => Except.error RPanic.unreachableTop
    | some (ResolveOutcome.panicIndexOutOfBounds, _) => Except.error RPanic.indexOutOfBounds
    | some (ResolveOutcome.ok t, d) =>
      match resolve_aliases_loop schema names fuel rest with
      | Except.error p => Except.error p
      | Except.ok (l, ds) => Except.ok ((aliasId, t) :: l, d ++ ds)

/-- `resolve_aliases` from `db.rs` lines 60-89 (= `types.rs`). The fuel
`numTypeAliases schema + 1` is sufficient (see the termination theorems). -/
def resolve_aliases (schema : SchemaAst) (names : Names) :
    Except RPanic (List (Nat × FullyResolvedType) × List DatamodelError) :=
  resolve_aliases_loop schema names (numTypeAliases schema + 1) (type_aliases schema)

/-- All `(model TopId, FieldId, Field)` triples of the schema in iteration
order: models in source order, each model's fields in order. -/
def iter_model_fields (schema : SchemaAst) : List (Nat × Nat × Field) :=
  (schema.tops.enum.filterMap (fun p => (Top.as_model p.2).map (fun m => (p.1, m)))).flatMap
    (fun q => q.2.fields.enum.map (fun r => (q.1, r.1, r.2)))

/-- Outcome of `Types::new`: normal completion with the field-type map and
diagnostics, the unimplemented branch reached for a supported model field
type, or a panic propagated from `resolve_aliases`. -/
inductive TypesNewResult where
  | ok (fields : List ((Nat × Nat) × FullyResolvedType)) (diagnostics : List DatamodelError)
  | panicTodo
  | panicResolve (p : RPanic)
  deriving DecidableEq

/-- The field loop of `Types::new` (`types.rs` lines 27-38): unsupported
field types are inserted as `Unsupported`; a supported field type hits the
unimplemented branch (modelled by `none`). -/
def types_fields_loop : List (Nat × Nat × Field) → Option (List ((Nat × Nat) × FullyResolvedType))
  | [] => some []
  | (modelId, fieldId, field) :: rest =>
    match field.fieldType with
    | FieldType.unsupported _ _ =>
      (types_fields_loop rest).map
        (fun l => ((modelId, fieldId), FullyResolvedType.unsupported) :: l)
    | FieldType.supported _ _ => none

/-- `Types::new` from `types.rs` lines 15-41. -/
def Types.new (schema : SchemaAst) (names : Names) : TypesNewResult :=
  match resolve_aliases schema names with
  | Except.error p => TypesNewResult.panicResolve p
  | Except.ok (_, diagnostics) =>
    match types_fields_loop (iter_model_fields schema) with
    | none => TypesNewResult.panicTodo
    | some fields => TypesNewResult.ok fields diagnostics

/-- Preview feature identifiers; only `PlanetScaleMode` is distinguished by
this layer. -/
inductive PreviewFeature where
  | planetScaleMode
  | otherFeature (name : String)
  deriving DecidableEq

/-- Modelled from the spec: `StringFromEnvVar` (the `configuration` module is
not among the given sources) holds a value resolved as
literal-or-environment-reference — a literal string, or a reference to an
environment variable together with the value it resolved to. -/
inductive StringFromEnvVar where
  | literal (value : String)
  | fromEnvVar (varName : String) (value : String)
  deriving DecidableEq

/-- Modelled from the spec: `as_literal` exposes the literal form when the
value was not environment-indirected. -/
def StringFromEnvVar.as_literal : StringFromEnvVar → Option String
  | StringFromEnvVar.literal v => some v
  | StringFromEnvVar.fromEnvVar _ _ => none

/-- One entry of the provider registry (`dyn DatasourceProvider`): a
predicate matching provider strings, the canonical name, and opaque
connector metadata (abstracted to a string tag). The registry itself
(`builtin_datasource_providers.rs`, not among the given sources) is kept as
a parameter of the loader, exactly as `source_definitions` is a field of
`DatasourceLoader`. -/
structure DatasourceProvider where
  is_provider : String → Bool
  canonical_name : String
  connector : String

/-- The `Datasource` configuration entity assembled by the loader. -/
structure Datasource where
  name : String
  provider : String
  active_provider : String
  url : StringFromEnvVar
  url_span : Span
  documentation : Option String
  active_connector : String
  shadow_database_url : Option (StringFromEnvVar × Span)
  planet_scale_mode : Bool
  deriving DecidableEq

/-- Modelled from the spec: `ValueValidator::is_from_env` (helpers module not
among the given sources) — whether the value is an env() reference. -/
def is_from_env : ArgValue → Bool
  | ArgValue.envVal _ => true
  | _ => false

/-- Modelled from the spec: `ValueValidator::as_string_literal` — the string
when the value is a literal string, not environment-derived. -/
def as_string_literal : ArgValue → Option String
  | ArgValue.strVal s => some s
  | _ => none

/-- Modelled from the spec: `ValueValidator::as_str_from_env` — resolve a
value as literal-or-environment-reference using the host-supplied
environment lookup. A reference to an unset environment variable is the
specific `EnvironmentFunctionalEvaluationError`; a value of the wrong shape
is a different (type mismatch) error. -/
def as_str_from_env (env : String → Option String) (arg : Arg) :
    Except DatamodelError StringFromEnvVar :=
  match arg.value with
  | ArgValue.strVal s => Except.ok (StringFromEnvVar.literal s)
  | ArgValue.envVal v =>
    match env v with
    | some value => Except.ok (StringFromEnvVar.fromEnvVar v value)
    | none => Except.error (DatamodelError.environmentFunctionalEvaluation v arg.span)
  | _ => Except.error (DatamodelError.typeMismatch ("String") arg.span)

/-- Modelled from the spec: `ValueValidator::as_bool` — evaluate the value as
a boolean; anything else is a coercion failure. -/
def as_bool (arg : Arg) : Except DatamodelError Bool :=
  match arg.value with
  | ArgValue.boolVal b => Except.ok b
  | _ => Except.error (DatamodelError.typeMismatch ("Boolean") arg.span)

/-- Modelled from the spec: `as_array().to_str_vec()` — the value as a list
of strings. -/
def to_str_vec (arg : Arg) : Except DatamodelError (List String) :=
  match arg.value with
  | ArgValue.arrayVal xs => Except.ok xs
  | _ => Except.error (DatamodelError.typeMismatch ("Array of String") arg.span)

/-- The argument lookup built at the top of `lift_datasource`: the block's
properties collected into a map keyed by argument name (for duplicate keys
the later entry wins, as when collecting into a `HashMap`). -/
def args_get (properties : List Arg) (key : String) : Option Arg :=
  properties.reverse.find? (fun a => a.name == key)

/-- The shadow database URL computation of `lift_datasource`
(`datasource_loader.rs` lines 140-159): resolve the optional
`shadowDatabaseUrl` argument; an explicitly empty resolved literal is
filtered out; a missing referenced environment variable is intentionally
ignored; any other resolution error is pushed as a diagnostic. -/
def resolve_shadow_database_url (env : String → Option String) :
    Option Arg → Option (StringFromEnvVar × Span) × List DatamodelError
  | none => (none, [])
  | some arg =>
    match as_str_from_env env arg with
    | Except.ok shadow_database_url =>
      ((if (match shadow_database_url.as_literal with
            | some lit => lit.isEmpty
            | none => false) then
          none
        else some (shadow_database_url, arg.span)), [])
    | Except.error (DatamodelError.environmentFunctionalEvaluation _ _) => (none, [])
    | Except.error err => (none, [err])

/-- The prose of `PLANET_SCALE_PREVIEW_FEATURE_ERR`. -/
def planet_scale_preview_feature_err : String :=
  "\nThe `planetScaleMode` option can only be set if the preview feature is enabled in a generator block.\n\nExample:\n\ngenerator client \x7b\n    provider = \"prisma-client-js\"\n    previewFeatures = [\"planetScaleMode\"]\n\x7d\n"

/-- `get_planet_scale_mode_arg` (`datasource_loader.rs` lines 218-249):
returns the flag together with the diagnostics it pushes. A coercion
failure pushes the error and leaves the flag false (so the preview-feature
gate cannot fire); a true flag without the preview feature pushes the
opt-in diagnostic and forces the flag false. -/
def get_planet_scale_mode_arg (args : String → Option Arg)
    (preview_features : List PreviewFeature) (source : SourceConfig) :
    Bool × List DatamodelError :=
  match args ("planetScaleMode") with
  | none => (false, [])
  | some value =>
    match as_bool value with
    | Except.error err => (false, [err])
    | Except.ok mode_enabled =>
      if mode_enabled && !(preview_features.contains PreviewFeature.planetScaleMode) then
        (false,
          [DatamodelError.sourceValidation planet_scale_preview_feature_err source.name value.span])
      else (mode_enabled, [])

/-- `preview_features_guardrail` (`datasource_loader.rs` lines 251-269):
the diagnostics it pushes. -/
def preview_features_guardrail (args : String → Option Arg) : List DatamodelError :=
  match args ("previewFeatures") with
  | none => []
  | some val =>
    match to_str_vec val with
    | Except.ok features =>
      if features.isEmpty then []
      else
        [DatamodelError.connectorError
          ("Preview features are only supported in the generator block. Please move this field to the generator block.")
          val.span]
    | Except.error err => [err]

/-- `DatasourceLoader::get_datasource_provider`. -/
def get_datasource_provider (source_definitions : List DatasourceProvider)
    (provider : String) : Option DatasourceProvider :=
  source_definitions.find? (fun sd => sd.is_provider provider)

/-- `DatasourceLoader::lift_datasource` (`datasource_loader.rs` lines
67-187), with the registry and the environment lookup as parameters. The
returned list holds the diagnostics pushed by this call, in push order. -/
def lift_datasource (source_definitions : List DatasourceProvider)
    (env : String → Option String) (ast_source : SourceConfig)
    (preview_features : List PreviewFeature) :
    Option Datasource × List DatamodelError :=
  let source_name := ast_source.name
  let args := args_get ast_source.properties
  match args ("provider") with
  | none =>
    (none, [DatamodelError.sourceArgumentNotFound ("provider") ast_source.name ast_source.span])
  | some provider_arg =>
    if is_from_env provider_arg.value then
      (none,
        [DatamodelError.functionalEvaluation
          ("A datasource must not use the env() function in the provider argument.")
          ast_source.span])
    else
      match as_string_literal provider_arg.value with
      | none =>
        (none,
          [DatamodelError.sourceValidation
            ("The provider argument in a datasource must be a string literal")
            source_name provider_arg.span])
      | some provider =>
        if provider = "" then
          (none,
            [DatamodelError.sourceValidation
              ("The provider argument in a datasource must not be empty")
              source_name provider_arg.span])
        else
          match args ("url") with
          | none =>
            (none,
              [DatamodelError.sourceArgumentNotFound ("url") ast_source.name ast_source.span])
          | some url_arg =>
            match as_str_from_env env url_arg with
            | Except.error err => (none, [err])
            | Except.ok url =>
              let shadow := resolve_shadow_database_url env (args ("shadowDatabaseUrl"))
              let guard := preview_features_guardrail args
              let documentation := ast_source.documentation
              match get_datasource_provider source_definitions provider with
              | none =>
                (none,
                  shadow.2 ++ guard ++
                    [DatamodelError.datasourceProviderNotKnown provider provider_arg.span])
              | some datasource_provider =>
                let psm := get_planet_scale_mode_arg args preview_features ast_source
                (some
                  { name := source_name
                    provider := provider
                    active_provider := datasource_provider.canonical_name
                    url := url
                    url_span := url_arg.span
                    documentation := documentation
                    active_connector := datasource_provider.connector
                    shadow_database_url := shadow.1
                    planet_scale_mode := psm.1 },
                  shadow.2 ++ guard ++ psm.2)

/-- `SchemaAst::sources`: the datasource blocks of the schema in source
order. -/
def SchemaAst.sources (schema : SchemaAst) : List SourceConfig :=
  schema.tops.filterMap (fun t =>
    match t with
    | Top.source cfg => some cfg
    | _ => none)

/-- The per-block loop of `load_datasources_from_ast`: lift each block,
keeping the successfully assembled entities and all pushed diagnostics in
order. -/
def load_sources_loop (source_definitions : List DatasourceProvider)
    (env : String → Option String) (preview_features : List PreviewFeature) :
    List SourceConfig → List Datasource × List DatamodelError
  | [] => ([], [])
  | src :: rest =>
    let lifted := lift_datasource source_definitions env src preview_features
    let restResult := load_sources_loop source_definitions env preview_features rest
    match lifted.1 with
    | some ds => (ds :: restResult.1, lifted.2 ++ restResult.2)
    | none => (restResult.1, lifted.2 ++ restResult.2)

/-- The multiple-datasources diagnostic message. -/
def multiple_datasources_message : String :=
  "You defined more than one datasource. This is not allowed yet because support for multiple databases has not been implemented yet."

/-- `DatasourceLoader::load_datasources_from_ast` (`datasource_loader.rs`
lines 40-65): lift every block; then, if more than one entity was
assembled, push one multiple-datasources diagnostic per declared block (the
iteration is over `ast_schema.sources()` again, not over the assembled
entities); all assembled entities are returned either way. -/
def load_datasources_from_ast (source_definitions : List DatasourceProvider)
    (env : String → Option String) (ast_schema : SchemaAst)
    (preview_features : List PreviewFeature) :
    List Datasource × List DatamodelError :=
  let r := load_sources_loop source_definitions env preview_features ast_schema.sources
  if r.1.length > 1 then
    (r.1,
      r.2 ++ ast_schema.sources.map (fun src =>
        DatamodelError.sourceValidation multiple_datasources_message src.name src.span))
  else r

/-! ## Helper lemmas: termination measure for the alias traversal -/

/-- `contains` on lists of strings is membership. -/
theorem contains_eq_decide (l : List String) (a : String) :
    l.contains a = decide (a ∈ l) :=
  List.elem_eq_mem a l

/-- `contains` is membership, generally. -/
theorem contains_eq_decide_mem {α : Type} [BEq α] [LawfulBEq α] (l : List α) (a : α) :
    l.contains a = decide (a ∈ l) :=
  List.elem_eq_mem a l

/-- Filtering by a stronger predicate that loses at least one element of the
list gives a strictly shorter result. -/
theorem length_filter_mono {α : Type} (l : List α) (p q : α → Bool)
    (himp : ∀ x, q x = true → p x = true) :
    (l.filter q).length ≤ (l.filter p).length := by
  induction l with
  | nil => simp
  | cons y ys ih =>
    by_cases hq : q y = true
    · have hp := himp y hq
      simp [List.filter_cons, hq, hp, Nat.succ_le_succ ih]
    · have hq2 : q y = false := by
        cases h : q y
        · rfl
        · exact absurd h hq
      by_cases hp : p y = true
      · simp only [List.filter_cons, hq2, hp, if_true, if_false, Bool.false_eq_true,
          List.length_cons]
        exact Nat.le_trans ih (Nat.le_succ _)
      · have hp2 : p y = false := by
          cases h : p y
          · rfl
          · exact absurd h hp
        simpa [List.filter_cons, hq2, hp2] using ih

theorem length_filter_lt {α : Type} (l : List α) (p q : α → Bool)
    (himp : ∀ x, q x = true → p x = true) (x : α) (hx : x ∈ l)
    (hpx : p x = true) (hqx : q x = false) :
    (l.filter q).length < (l.filter p).length := by
  induction l with
  | nil => cases hx
  | cons y ys ih =>
    rcases List.mem_cons.mp hx with rfl | hmem
    · have hq2 : q x = false := hqx
      simp only [List.filter_cons, hq2, hpx, if_true, if_false, Bool.false_eq_true,
        List.length_cons]
      exact Nat.lt_succ_of_le (length_filter_mono ys p q himp)
    · by_cases hq : q y = true
      · have hp := himp y hq
        simpa [List.filter_cons, hq, hp] using ih hmem
      · have hq2 : q y = false := by
          cases h : q y
          · rfl
          · exact absurd h hq
        by_cases hp : p y = true
        · simp only [List.filter_cons, hq2, hp, if_true, if_false, Bool.false_eq_true,
            List.length_cons]
          exact Nat.lt_succ_of_le (Nat.le_of_lt (ih hmem))
        · have hp2 : p y = false := by
            cases h : p y
            · rfl
            · exact absurd h hp
          simpa [List.filter_cons, hq2, hp2] using ih hmem

/-- The measure that bounds the alias traversal: the number of declared alias
names not yet on the traversal stack. -/
def freeAliasCount (schema : SchemaAst) (traversed : List String) : Nat :=
  ((aliasNames schema).filter (fun n => !(traversed.contains n))).length

/-- A name referenced through the schema as a type alias is a declared alias
name. -/
theorem referenced_mem_aliasNames {schema : SchemaAst} {id : Nat} {ref : Field}
    (h : schema.tops.get? id = some (Top.typeAlias ref)) :
    ref.name ∈ aliasNames schema := by
  have hmem : Top.typeAlias ref ∈ schema.tops := List.get?_mem h
  exact List.mem_filterMap.mpr ⟨Top.typeAlias ref, hmem, rfl⟩

/-- Pushing a declared alias name that is not yet on the stack strictly
decreases the measure. -/
theorem freeAliasCount_push_lt (schema : SchemaAst) (traversed : List String)
    (n : String) (hmem : n ∈ aliasNames schema)
    (hnot : traversed.contains n = false) :
    freeAliasCount schema (traversed ++ [n]) < freeAliasCount schema traversed := by
  refine length_filter_lt (aliasNames schema)
    (fun m => !(traversed.contains m)) (fun m => !((traversed ++ [n]).contains m))
    ?_ n hmem ?_ ?_
  · intro x hx
    simp only [contains_eq_decide, List.mem_append, List.mem_singleton, Bool.not_eq_true',
      decide_eq_false_iff_not] at hx ⊢
    tauto
  · simp only [contains_eq_decide, Bool.not_eq_true', decide_eq_false_iff_not] at hnot ⊢
    exact hnot
  · simp [contains_eq_decide]

/-- With fuel strictly above the measure, `resolve_alias` returns. -/
theorem resolve_alias_isSome (schema : SchemaAst) (names : Names)
    (rootAliasId : Nat) (rootTypeAlias : Field) :
    ∀ (fuel : Nat) (traversed : List String),
      freeAliasCount schema traversed < fuel →
      (resolve_alias fuel schema names rootAliasId rootTypeAlias traversed).isSome = true := by
  intro fuel
  induction fuel with
  | zero => exact fun trav h => absurd h (Nat.not_lt_zero _)
  | succ fuel ih =>
    intro trav h
    rw [resolve_alias]
    split
    · rfl
    · split
      · rfl
      · split
        · rfl
        · split <;> try rfl
          rename_i referencedAlias heq
          split
          · rfl
          · rename_i hc
            apply ih
            have hb2 : (_ == _ || trav.contains referencedAlias.name) = false :=
              Bool.eq_false_iff.mpr hc
            have hnot : trav.contains referencedAlias.name = false :=
              (Bool.or_eq_false_iff.mp hb2).2
            have hlt := freeAliasCount_push_lt schema trav referencedAlias.name
              (referenced_mem_aliasNames heq) hnot
            omega

/-- The result of `resolve_alias` does not depend on the fuel, as long as the
fuel is strictly above the measure. -/
theorem resolve_alias_fuel_eq (schema : SchemaAst) (names : Names)
    (rootAliasId : Nat) (rootTypeAlias : Field) :
    ∀ (f1 f2 : Nat) (traversed : List String),
      freeAliasCount schema traversed < f1 →
      freeAliasCount schema traversed < f2 →
      resolve_alias f1 schema names rootAliasId rootTypeAlias traversed =
        resolve_alias f2 schema names rootAliasId rootTypeAlias traversed := by
  intro f1
  induction f1 with
  | zero => exact fun f2 trav h1 _ => absurd h1 (Nat.not_lt_zero _)
  | succ f1 ih =>
    intro f2 trav h1 h2
    cases f2 with
    | zero => exact absurd h2 (Nat.not_lt_zero _)
    | succ f2 =>
      rw [resolve_alias]
      rw [resolve_alias]
      split
      · rfl
      · split
        · rfl
        · split
          · rfl
          · split <;> try rfl
            rename_i referencedAlias heq
            split
            · rfl
            · rename_i hc
              have hb2 : (_ == _ || trav.contains referencedAlias.name) = false :=
                Bool.eq_false_iff.mpr hc
              have hnot : trav.contains referencedAlias.name = false :=
                (Bool.or_eq_false_iff.mp hb2).2
              have hlt := freeAliasCount_push_lt schema trav referencedAlias.name
                (referenced_mem_aliasNames heq) hnot
              exact ih f2 (trav ++ [referencedAlias.name]) (by omega) (by omega)

/-- Quantified sufficient fuel over the empty stack: the measure over the
empty traversal stack is exactly the number of declared aliases. -/
theorem freeAliasCount_nil (schema : SchemaAst) :
    freeAliasCount schema [] = numTypeAliases schema := by
  simp [freeAliasCount, numTypeAliases, contains_eq_decide]

/-- Well-formedness of the `Names` table relative to a schema: every handle
it stores points into the schema, and never at a generator or datasource
declaration. This is the invariant the upstream symbol-table construction
guarantees for names in type position. -/
def wf_names (names : Names) (schema : SchemaAst) : Bool :=
  names.tops.all (fun p =>
    match schema.tops.get? p.2 with
    | some (Top.generator _) => false
    | some (Top.source _) => false
    | none => false
    | some _ => true)

/-- What a successful lookup yields under `wf_names`. -/
theorem wf_names_get {names : Names} {schema : SchemaAst}
    (hwf : wf_names names schema = true) {name : String} {id : Nat}
    (h : names.get name = some id) :
    ∃ top, schema.tops.get? id = some top ∧
      (∀ g, top ≠ Top.generator g) ∧ (∀ cfg, top ≠ Top.source cfg) := by
  unfold Names.get at h
  cases hf : names.tops.find? (fun p => p.1 == name) with
  | none => rw [hf] at h; cases h
  | some p =>
    rw [hf] at h
    have hid : p.2 = id := by simpa using h
    have hp : p ∈ names.tops := List.mem_of_find?_eq_some hf
    have hall := (List.all_eq_true.mp hwf) p hp
    subst hid
    cases hg : schema.tops.get? p.2 with
    | none => rw [hg] at hall; simp at hall
    | some top =>
      rw [hg] at hall
      cases top with
      | generator g => simp at hall
      | source cfg => simp at hall
      | typeAlias f =>
        exact ⟨_, rfl, fun g hc => Top.noConfusion hc, fun c hc => Top.noConfusion hc⟩
      | model m =>
        exact ⟨_, rfl, fun g hc => Top.noConfusion hc, fun c hc => Top.noConfusion hc⟩
      | enum e =>
        exact ⟨_, rfl, fun g hc => Top.noConfusion hc, fun c hc => Top.noConfusion hc⟩

/-- Under `wf_names`, every returned outcome of `resolve_alias` is a normal
`ok` outcome: neither panic constructor is reachable. -/
theorem resolve_alias_wf_ok (schema : SchemaAst) (names : Names)
    (hwf : wf_names names schema = true) (rootAliasId : Nat) (rootTypeAlias : Field) :
    ∀ (fuel : Nat) (traversed : List String) (out : ResolveOutcome)
      (d : List DatamodelError),
      resolve_alias fuel schema names rootAliasId rootTypeAlias traversed = some (out, d) →
      ∃ t, out = ResolveOutcome.ok t := by
  intro fuel
  induction fuel with
  | zero =>
    intro trav out d h
    rw [resolve_alias] at h
    cases h
  | succ fuel ih =>
    intro trav out d h
    rw [resolve_alias] at h
    split at h
    · cases h; exact ⟨_, rfl⟩
    · split at h
      · cases h; exact ⟨_, rfl⟩
      · split at h
        · cases h; exact ⟨_, rfl⟩
        · rename_i referencedId hn
          split at h
          · rename_i hg
            obtain ⟨top, htop, _, _⟩ := wf_names_get hwf hn
            rw [htop] at hg
            cases hg
          · split at h
            · cases h; exact ⟨_, rfl⟩
            · exact ih _ out d h
          · cases h; exact ⟨_, rfl⟩
          · cases h; exact ⟨_, rfl⟩
          · rename_i g hg
            obtain ⟨top, htop, hng, _⟩ := wf_names_get hwf hn
            rw [htop] at hg
            cases hg
            exact absurd rfl (hng g)
          · rename_i cfg hg
            obtain ⟨top, htop, _, hns⟩ := wf_names_get hwf hn
            rw [htop] at hg
            cases hg
            exact absurd rfl (hns cfg)

/-! ## Concrete schemas used to instantiate the theorems -/

/-- The declaration `type A = B` (type span 10, alias span 1). -/
def fieldA : Field := ⟨"A", FieldType.supported ("B") 10, 1⟩

/-- The declaration `type B = Int` (type span 20, alias span 2). -/
def fieldB : Field := ⟨"B", FieldType.supported ("Int") 20, 2⟩

/-- The schema `type A = B; type B = Int`. -/
def schemaAB : SchemaAst := ⟨[Top.typeAlias fieldA, Top.typeAlias fieldB]⟩

/-- The symbol table for `schemaAB`. -/
def namesAB : Names := ⟨[("A", 0), ("B", 1)]⟩

/-- The self-referencing declaration `type A = A`. -/
def fieldAA : Field := ⟨"A", FieldType.supported ("A") 5, 6⟩

/-- The schema `type A = A`. -/
def schemaAA : SchemaAst := ⟨[Top.typeAlias fieldAA]⟩

/-- The symbol table for `schemaAA`. -/
def namesAA : Names := ⟨[("A", 0)]⟩

/-! ## Claims -/

/-- C1: the claim states that an acyclic alias chain of length two, such as
`type A = B; type B = Int`, resolves the root alias `A` to `Scalar` with no
diagnostic. The code does not do this: the recursive call re-resolves the
root alias field after pushing the referenced name, so the second pass
finds `B` on the traversal stack and reports a spurious recursive-type
error, returning `Unknown` for `A` (while `B` itself resolves to `Scalar`).
This theorem evaluates the code at that failing input. -/
theorem resolve_aliases_acyclic_chain_spurious_cycle :
    resolve_aliases schemaAB namesAB =
      Except.ok ([(0, FullyResolvedType.unknown), (1, FullyResolvedType.scalar)],
        [DatamodelError.validation
          ("Recursive type definitions are not allowed. Recursive path was: B -> A.") 1]) :=
  rfl

/-- C3: whenever the referenced declaration is a type alias that is the root
alias being resolved, or whose name is already on the traversal stack,
`resolve_alias` returns `Unknown` and pushes exactly one diagnostic
rendering the full traversal path. -/
theorem resolve_alias_cycle_unknown_single_diagnostic
    (schema : SchemaAst) (names : Names) (rootAliasId : Nat) (rootTypeAlias : Field)
    (traversed : List String) (fuel : Nat) (typeName : String) (typeSpan : Span)
    (referencedId : Nat) (referencedAlias : Field)
    (hft : rootTypeAlias.fieldType = FieldType.supported typeName typeSpan)
    (hscalar : BUILT_IN_SCALARS.contains typeName = false)
    (hget : names.get typeName = some referencedId)
    (htop : schema.tops.get? referencedId = some (Top.typeAlias referencedAlias))
    (hcyc : referencedId = rootAliasId ∨ traversed.contains referencedAlias.name = true) :
    resolve_alias (fuel + 1) schema names rootAliasId rootTypeAlias traversed =
      some (ResolveOutcome.ok FullyResolvedType.unknown,
        [DatamodelError.validation (recursive_type_message traversed rootTypeAlias.name)
          rootTypeAlias.span]) := by
  have hcond : referencedId = rootAliasId ∨ referencedAlias.name ∈ traversed := by
    rcases hcyc with h | h
    · exact Or.inl h
    · exact Or.inr (by simpa [contains_eq_decide] using h)
  have hscalar2 : typeName ∉ BUILT_IN_SCALARS := by
    simpa [contains_eq_decide] using hscalar
  have htop2 : schema.tops[referencedId]? = some (Top.typeAlias referencedAlias) := by
    simpa using htop
  rw [resolve_alias, hft]
  simp [hscalar2, hget, htop2, hcond]

/-- C3 witness: the self-reference `type A = A` yields `Unknown` plus one
cycle diagnostic whose rendered path mentions `A`. -/
theorem resolve_alias_cycle_unknown_single_diagnostic_witness :
    resolve_alias 1 schemaAA namesAA 0 fieldAA [] =
      some (ResolveOutcome.ok FullyResolvedType.unknown,
        [DatamodelError.validation (recursive_type_message [] ("A")) 6]) ∧
    recursive_type_message [] ("A") =
      "Recursive type definitions are not allowed. Recursive path was:  -> A." := by
  constructor
  · exact resolve_alias_cycle_unknown_single_diagnostic schemaAA namesAA 0 fieldAA [] 0
      ("A") 5 0 fieldAA rfl (by decide) rfl rfl (Or.inl rfl)
  · rfl

/-- C5: alias resolution terminates on every input: with fuel one more than
the number of declared aliases the embedded recursion always returns, and
any larger fuel gives the same result (the recursion depth is bounded by
the number of declared aliases, since every recursive step pushes a
not-yet-visited declared alias name onto the traversal stack). -/
theorem resolve_alias_terminates (schema : SchemaAst) (names : Names)
    (rootAliasId : Nat) (rootTypeAlias : Field) (fuel : Nat)
    (hfuel : numTypeAliases schema + 1 ≤ fuel) :
    (resolve_alias (numTypeAliases schema + 1) schema names
      rootAliasId rootTypeAlias []).isSome = true ∧
    resolve_alias fuel schema names rootAliasId rootTypeAlias [] =
      resolve_alias (numTypeAliases schema + 1) schema names rootAliasId rootTypeAlias [] := by
  have hm : freeAliasCount schema [] < numTypeAliases schema + 1 := by
    rw [freeAliasCount_nil]; omega
  constructor
  · exact resolve_alias_isSome schema names rootAliasId rootTypeAlias _ [] hm
  · exact resolve_alias_fuel_eq schema names rootAliasId rootTypeAlias fuel _ []
      (by rw [freeAliasCount_nil]; omega) hm

/-- C5 witness at the two-alias schema with surplus fuel. -/
theorem resolve_alias_terminates_witness :
    (resolve_alias (numTypeAliases schemaAB + 1) schemaAB namesAB 0 fieldA []).isSome = true ∧
    resolve_alias 5 schemaAB namesAB 0 fieldA [] =
      resolve_alias (numTypeAliases schemaAB + 1) schemaAB namesAB 0 fieldA [] :=
  resolve_alias_terminates schemaAB namesAB 0 fieldA 5 (by decide)

/-- C9: whenever the `Names` table is well formed (it never maps a name to a
generator or datasource declaration, and every stored handle points into the
schema), every outcome `resolve_alias` returns is a normal `ok` outcome:
the `unreachable` arm is never executed and the function never aborts. -/
theorem resolve_alias_never_hits_unreachable (schema : SchemaAst) (names : Names)
    (hwf : wf_names names schema = true) (fuel : Nat) (rootAliasId : Nat)
    (rootTypeAlias : Field) (traversed : List String) (out : ResolveOutcome)
    (d : List DatamodelError)
    (h : resolve_alias fuel schema names rootAliasId rootTypeAlias traversed = some (out, d)) :
    ∃ t, out = ResolveOutcome.ok t :=
  resolve_alias_wf_ok schema names hwf rootAliasId rootTypeAlias fuel traversed out d h

/-- C9 witness on the two-alias schema, whose symbol table is well formed. -/
theorem resolve_alias_never_hits_unreachable_witness :
    ∃ t, ResolveOutcome.ok FullyResolvedType.scalar = ResolveOutcome.ok t :=
  resolve_alias_never_hits_unreachable schemaAB namesAB (by decide) 1 1 fieldB []
    (ResolveOutcome.ok FullyResolvedType.scalar) [] (by decide)

/-- Under a well-formed symbol table, the alias-resolution loop completes. -/
theorem resolve_aliases_loop_ok (schema : SchemaAst) (names : Names)
    (hwf : wf_names names schema = true) (fuel : Nat)
    (hfuel : numTypeAliases schema < fuel) :
    ∀ l : List (Nat × Field),
      ∃ res, resolve_aliases_loop schema names fuel l = Except.ok res := by
  intro l
  induction l with
  | nil => exact ⟨([], []), rfl⟩
  | cons p rest ih =>
    obtain ⟨aliasId, typeAlias⟩ := p
    have hm : freeAliasCount schema [] < fuel := by rw [freeAliasCount_nil]; omega
    have hs := resolve_alias_isSome schema names aliasId typeAlias fuel [] hm
    cases hr : resolve_alias fuel schema names aliasId typeAlias [] with
    | none => rw [hr] at hs; cases hs
    | some pr =>
      obtain ⟨out, d⟩ := pr
      obtain ⟨t, rfl⟩ := resolve_alias_wf_ok schema names hwf aliasId typeAlias fuel [] out d hr
      obtain ⟨res, hres⟩ := ih
      obtain ⟨l0, ds0⟩ := res
      refine ⟨((aliasId, t) :: l0, d ++ ds0), ?_⟩
      rw [resolve_aliases_loop]
      simp only [hr, hres]

/-- Under a well-formed symbol table, `resolve_aliases` completes. -/
theorem resolve_aliases_ok (schema : SchemaAst) (names : Names)
    (hwf : wf_names names schema = true) :
    ∃ res, resolve_aliases schema names = Except.ok res :=
  resolve_aliases_loop_ok schema names hwf _ (Nat.lt_succ_self _) (type_aliases schema)

/-- If any iterated model field has a supported type, the field loop of
`Types::new` hits the unimplemented branch. -/
theorem types_fields_loop_none_of_mem (l : List (Nat × Nat × Field))
    (mid fid : Nat) (f : Field) (hx : (mid, fid, f) ∈ l) (n : String) (sp : Span)
    (hft : f.fieldType = FieldType.supported n sp) : types_fields_loop l = none := by
  induction l with
  | nil => cases hx
  | cons y rest ih =>
    obtain ⟨mid2, fid2, f2⟩ := y
    rw [types_fields_loop]
    rcases List.mem_cons.mp hx with heq | hmem
    · cases heq
      rw [hft]
    · cases hft2 : f2.fieldType with
      | supported n2 sp2 => rfl
      | unsupported d2 sp2 => rw [ih hmem]; rfl

/-- If the field loop of `Types::new` completes, every iterated model field
was marked unsupported and it is mapped to `Unsupported`. -/
theorem types_fields_loop_some (l : List (Nat × Nat × Field)) :
    ∀ fields, types_fields_loop l = some fields →
      fields = l.map (fun x => ((x.1, x.2.1), FullyResolvedType.unsupported)) ∧
      ∀ x ∈ l, ∃ d sp, x.2.2.fieldType = FieldType.unsupported d sp := by
  induction l with
  | nil =>
    intro fields h
    rw [types_fields_loop] at h
    cases h
    exact ⟨rfl, by simp⟩
  | cons y rest ih =>
    obtain ⟨mid, fid, f⟩ := y
    intro fields h
    rw [types_fields_loop] at h
    split at h
    · rename_i d sp hft
      cases hrest : types_fields_loop rest with
      | none => rw [hrest] at h; cases h
      | some l0 =>
        rw [hrest] at h
        cases h
        obtain ⟨hshape, hall⟩ := ih l0 hrest
        constructor
        · simp [hshape]
        · intro x hx
          rcases List.mem_cons.mp hx with rfl | hmem
          · exact ⟨d, sp, hft⟩
          · exact hall x hmem
    · cases h

/-- C10: under the documented `Names` invariant (so that `resolve_aliases`
completes), `Types::new` hits the unimplemented branch as soon as any model
field has a supported type, and when it completes normally every model
field was marked unsupported and is mapped to
`FullyResolvedType::Unsupported`. -/
theorem types_new_panics_unless_all_unsupported (schema : SchemaAst) (names : Names)
    (hwf : wf_names names schema = true) :
    ((∃ x ∈ iter_model_fields schema, ∃ n sp, x.2.2.fieldType = FieldType.supported n sp) →
      Types.new schema names = TypesNewResult.panicTodo) ∧
    (∀ fields diagnostics, Types.new schema names = TypesNewResult.ok fields diagnostics →
      fields = (iter_model_fields schema).map
        (fun x => ((x.1, x.2.1), FullyResolvedType.unsupported)) ∧
      ∀ x ∈ iter_model_fields schema, ∃ d sp,
        x.2.2.fieldType = FieldType.unsupported d sp) := by
  obtain ⟨res, hres⟩ := resolve_aliases_ok schema names hwf
  obtain ⟨aliases0, diags0⟩ := res
  constructor
  · rintro ⟨⟨mid, fid, f⟩, hx, n, sp, hft⟩
    have hnone := types_fields_loop_none_of_mem (iter_model_fields schema) mid fid f hx n sp hft
    simp only [Types.new, hres, hnone]
  · intro fields diagnostics h
    simp only [Types.new, hres] at h
    split at h
    · cases h
    · rename_i fields2 hloop
      cases h
      exact types_fields_loop_some _ fields hloop

/-- A model with one explicitly unsupported field. -/
def modelU : Model := ⟨"M", [⟨"f", FieldType.unsupported ("X") 30, 31⟩]⟩

/-- A schema holding only `modelU`. -/
def schemaM : SchemaAst := ⟨[Top.model modelU]⟩

/-- The symbol table for `schemaM`. -/
def namesM : Names := ⟨[("M", 0)]⟩

/-- C10 witness: on a schema whose single model field is unsupported,
`Types::new` completes and the field map is as described. -/
theorem types_new_panics_unless_all_unsupported_witness :
    [((0, 0), FullyResolvedType.unsupported)] =
      (iter_model_fields schemaM).map
        (fun x => ((x.1, x.2.1), FullyResolvedType.unsupported)) :=
  ((types_new_panics_unless_all_unsupported schemaM namesM (by decide)).2
    [((0, 0), FullyResolvedType.unsupported)] [] (by decide)).1

/-! ## Helper lemmas for the datasource loader -/

/-- A value with a string-literal form is not environment-derived. -/
theorem is_from_env_false_of_string_literal {v : ArgValue} {s : String}
    (h : as_string_literal v = some s) : is_from_env v = false := by
  cases v <;> simp_all [as_string_literal, is_from_env]

/-- Shape of `lift_datasource` when every required argument validates and the
provider is found in the registry. -/
theorem lift_datasource_success_shape (defs : List DatasourceProvider)
    (env : String → Option String) (src : SourceConfig) (preview : List PreviewFeature)
    (pArg : Arg) (p : String) (uArg : Arg) (u : StringFromEnvVar) (dp : DatasourceProvider)
    (hprov : args_get src.properties ("provider") = some pArg)
    (hlit : as_string_literal pArg.value = some p)
    (hne : p ≠ "")
    (hurl : args_get src.properties ("url") = some uArg)
    (hurlok : as_str_from_env env uArg = Except.ok u)
    (hreg : get_datasource_provider defs p = some dp) :
    lift_datasource defs env src preview =
      (some
        { name := src.name
          provider := p
          active_provider := dp.canonical_name
          url := u
          url_span := uArg.span
          documentation := src.documentation
          active_connector := dp.connector
          shadow_database_url :=
            (resolve_shadow_database_url env (args_get src.properties ("shadowDatabaseUrl"))).1
          planet_scale_mode :=
            (get_planet_scale_mode_arg (args_get src.properties) preview src).1 },
        (resolve_shadow_database_url env (args_get src.properties ("shadowDatabaseUrl"))).2 ++
          preview_features_guardrail (args_get src.properties) ++
          (get_planet_scale_mode_arg (args_get src.properties) preview src).2) := by
  have hnotenv : is_from_env pArg.value = false := is_from_env_false_of_string_literal hlit
  simp only [lift_datasource, hprov, hnotenv, hlit, hurl, hurlok, hreg]
  simp [hne]

/-- Shape of `lift_datasource` when everything up to the URL validates but the
provider string matches no registry entry. -/
theorem lift_datasource_registry_none_shape (defs : List DatasourceProvider)
    (env : String → Option String) (src : SourceConfig) (preview : List PreviewFeature)
    (pArg : Arg) (p : String) (uArg : Arg) (u : StringFromEnvVar)
    (hprov : args_get src.properties ("provider") = some pArg)
    (hlit : as_string_literal pArg.value = some p)
    (hne : p ≠ "")
    (hurl : args_get src.properties ("url") = some uArg)
    (hurlok : as_str_from_env env uArg = Except.ok u)
    (hreg : get_datasource_provider defs p = none) :
    lift_datasource defs env src preview =
      (none,
        (resolve_shadow_database_url env (args_get src.properties ("shadowDatabaseUrl"))).2 ++
          preview_features_guardrail (args_get src.properties) ++
          [DatamodelError.datasourceProviderNotKnown p pArg.span]) := by
  have hnotenv : is_from_env pArg.value = false := is_from_env_false_of_string_literal hlit
  simp only [lift_datasource, hprov, hnotenv, hlit, hurl, hurlok, hreg]
  simp [hne]

/-- The per-block loop keeps exactly the successfully assembled entities and
concatenates every block's diagnostics in order. -/
theorem load_sources_loop_spec (defs : List DatasourceProvider)
    (env : String → Option String) (preview : List PreviewFeature) :
    ∀ l : List SourceConfig,
      (load_sources_loop defs env preview l).1 =
        l.filterMap (fun s => (lift_datasource defs env s preview).1) ∧
      (load_sources_loop defs env preview l).2 =
        l.flatMap (fun s => (lift_datasource defs env s preview).2) := by
  intro l
  induction l with
  | nil => exact ⟨rfl, rfl⟩
  | cons s rest ih =>
    obtain ⟨ih1, ih2⟩ := ih
    rw [load_sources_loop]
    cases hl : (lift_datasource defs env s preview).1 with
    | none => simp [hl, ih1, ih2]
    | some ds => simp [hl, ih1, ih2]

/-! ## Demo datasource inputs -/

/-- A one-entry registry recognizing the provider string `postgresql`. -/
def demoProvider : DatasourceProvider :=
  { is_provider := fun s => s == "postgresql"
    canonical_name := "postgresql"
    connector := "postgres" }

/-- The registry used in the concrete instances. -/
def demoDefs : List DatasourceProvider := [demoProvider]

/-- A host environment defining only `DB_URL`. -/
def demoEnv : String → Option String :=
  fun v => if v = "DB_URL" then some ("postgres://fromenv") else none

/-- A well-formed datasource block named `db1`. -/
def block1 : SourceConfig :=
  ⟨"db1",
    [⟨"provider", ArgValue.strVal ("postgresql"), 101⟩,
     ⟨"url", ArgValue.strVal ("postgres://x"), 102⟩],
    none, 100⟩

/-- A well-formed datasource block named `db2`. -/
def block2 : SourceConfig :=
  ⟨"db2",
    [⟨"provider", ArgValue.strVal ("postgresql"), 201⟩,
     ⟨"url", ArgValue.strVal ("postgres://y"), 202⟩],
    none, 200⟩

/-- A schema with two well-formed datasource blocks. -/
def twoSchema : SchemaAst := ⟨[Top.source block1, Top.source block2]⟩

/-- A block missing the `provider` argument. -/
def noProviderBlock : SourceConfig :=
  ⟨"db", [⟨"url", ArgValue.strVal ("u"), 2⟩], none, 9⟩

/-- A block setting `planetScaleMode = true`. -/
def psmBlock : SourceConfig :=
  ⟨"db",
    [⟨"provider", ArgValue.strVal ("postgresql"), 1⟩,
     ⟨"url", ArgValue.strVal ("postgres://x"), 2⟩,
     ⟨"planetScaleMode", ArgValue.boolVal true, 3⟩],
    none, 0⟩

/-- A block with a non-empty `previewFeatures` list. -/
def pfBlock : SourceConfig :=
  ⟨"db",
    [⟨"provider", ArgValue.strVal ("postgresql"), 1⟩,
     ⟨"url", ArgValue.strVal ("postgres://x"), 2⟩,
     ⟨"previewFeatures", ArgValue.arrayVal ["foo"], 3⟩],
    none, 0⟩

/-- C2: whenever more than one `Datasource` entity is assembled,
`load_datasources_from_ast` still returns every successfully assembled
entity, and the diagnostics are the per-block diagnostics followed by one
multiple-datasources diagnostic per originally-declared datasource block
(including blocks whose own validation failed). -/
theorem load_datasources_multiple_diagnostics (defs : List DatasourceProvider)
    (env : String → Option String) (schema : SchemaAst) (preview : List PreviewFeature)
    (h : 1 < (load_datasources_from_ast defs env schema preview).1.length) :
    (load_datasources_from_ast defs env schema preview).1 =
      schema.sources.filterMap (fun s => (lift_datasource defs env s preview).1) ∧
    (load_datasources_from_ast defs env schema preview).2 =
      schema.sources.flatMap (fun s => (lift_datasource defs env s preview).2) ++
        schema.sources.map (fun src =>
          DatamodelError.sourceValidation multiple_datasources_message src.name src.span) := by
  obtain ⟨k1, k2⟩ := load_sources_loop_spec defs env preview schema.sources
  have h1 : (load_datasources_from_ast defs env schema preview).1 =
      (load_sources_loop defs env preview schema.sources).1 := by
    simp only [load_datasources_from_ast]
    split <;> rfl
  have hloop : 1 < (load_sources_loop defs env preview schema.sources).1.length := by
    rw [← h1]; exact h
  constructor
  · rw [h1, k1]
  · simp only [load_datasources_from_ast]
    split
    · rw [k2]
    · rename_i hc
      exact absurd hloop hc

/-- C2 witness: two well-formed blocks give two entities and exactly the two
multiple-datasources diagnostics. -/
theorem load_datasources_multiple_diagnostics_witness :
    (load_datasources_from_ast demoDefs demoEnv twoSchema []).1.length = 2 ∧
    (load_datasources_from_ast demoDefs demoEnv twoSchema []).2 =
      [DatamodelError.sourceValidation multiple_datasources_message ("db1") 100,
       DatamodelError.sourceValidation multiple_datasources_message ("db2") 200] := by
  have h := load_datasources_multiple_diagnostics demoDefs demoEnv twoSchema [] (by decide)
  exact ⟨by decide, by rw [h.2]; rfl⟩

/-- C4: the shadow database URL is treated as absent without a diagnostic
when its env var is missing or when it resolves to an explicitly empty
literal; any other resolution error becomes a diagnostic while the block
still yields a `Datasource` whose shadow field is the computed one. -/
theorem shadow_database_url_handling (env : String → Option String) :
    (∀ (arg : Arg) (v : String), arg.value = ArgValue.envVal v → env v = none →
      resolve_shadow_database_url env (some arg) = (none, [])) ∧
    (∀ arg : Arg, arg.value = ArgValue.strVal ("") →
      resolve_shadow_database_url env (some arg) = (none, [])) ∧
    (∀ (arg : Arg) (e : DatamodelError), as_str_from_env env arg = Except.error e →
      (∀ v sp, e ≠ DatamodelError.environmentFunctionalEvaluation v sp) →
      resolve_shadow_database_url env (some arg) = (none, [e])) ∧
    (∀ (defs : List DatasourceProvider) (src : SourceConfig)
      (preview : List PreviewFeature) (pArg : Arg) (p : String) (uArg : Arg)
      (u : StringFromEnvVar) (dp : DatasourceProvider),
      args_get src.properties ("provider") = some pArg →
      as_string_literal pArg.value = some p → p ≠ "" →
      args_get src.properties ("url") = some uArg →
      as_str_from_env env uArg = Except.ok u →
      get_datasource_provider defs p = some dp →
      ∃ ds, (lift_datasource defs env src preview).1 = some ds ∧
        ds.shadow_database_url =
          (resolve_shadow_database_url env (args_get src.properties ("shadowDatabaseUrl"))).1 ∧
        (lift_datasource defs env src preview).2 =
          (resolve_shadow_database_url env (args_get src.properties ("shadowDatabaseUrl"))).2 ++
            preview_features_guardrail (args_get src.properties) ++
            (get_planet_scale_mode_arg (args_get src.properties) preview src).2) := by
  refine ⟨?_, ?_, ?_, ?_⟩
  · intro arg v hv henv
    simp [resolve_shadow_database_url, as_str_from_env, hv, henv]
  · intro arg hv
    simp [resolve_shadow_database_url, as_str_from_env, hv, StringFromEnvVar.as_literal]
    try decide
  · intro arg e h hne
    cases e with
    | environmentFunctionalEvaluation v sp => exact absurd rfl (hne v sp)
    | validation m sp => simp [resolve_shadow_database_url, h]
    | typeNotFound t sp => simp [resolve_shadow_database_url, h]
    | sourceArgumentNotFound a s sp => simp [resolve_shadow_database_url, h]
    | functionalEvaluation m sp => simp [resolve_shadow_database_url, h]
    | sourceValidation m s sp => simp [resolve_shadow_database_url, h]
    | typeMismatch t sp => simp [resolve_shadow_database_url, h]
    | datasourceProviderNotKnown p sp => simp [resolve_shadow_database_url, h]
    | connectorError m sp => simp [resolve_shadow_database_url, h]
  · intro defs src preview pArg p uArg u dp hprov hlit hne hurl hurlok hreg
    have hs := lift_datasource_success_shape defs env src preview pArg p uArg u dp
      hprov hlit hne hurl hurlok hreg
    refine ⟨{ name := src.name
              provider := p
              active_provider := dp.canonical_name
              url := u
              url_span := uArg.span
              documentation := src.documentation
              active_connector := dp.connector
              shadow_database_url :=
                (resolve_shadow_database_url env
                  (args_get src.properties ("shadowDatabaseUrl"))).1
              planet_scale_mode :=
                (get_planet_scale_mode_arg (args_get src.properties) preview src).1 },
      ?_, rfl, ?_⟩
    · rw [hs]
    · rw [hs]

/-- C4 witness: a shadow URL referencing an unset env var yields the field
absent and no diagnostic. -/
theorem shadow_database_url_handling_witness :
    resolve_shadow_database_url demoEnv
      (some ⟨"shadowDatabaseUrl", ArgValue.envVal ("MISSING"), 3⟩) = (none, []) :=
  (shadow_database_url_handling demoEnv).1 ⟨"shadowDatabaseUrl", ArgValue.envVal ("MISSING"), 3⟩
    ("MISSING") rfl (by decide)

/-- C6: a block whose `provider` argument is missing, environment-derived,
not a string literal, empty, or unknown to the registry contributes no
`Datasource` and pushes the corresponding diagnostic; the missing-provider
case pushes exactly one argument-not-found diagnostic. -/
theorem lift_datasource_provider_failures (defs : List DatasourceProvider)
    (env : String → Option String) (src : SourceConfig) (preview : List PreviewFeature) :
    (args_get src.properties ("provider") = none →
      lift_datasource defs env src preview =
        (none, [DatamodelError.sourceArgumentNotFound ("provider") src.name src.span])) ∧
    (∀ pArg : Arg, args_get src.properties ("provider") = some pArg →
      (is_from_env pArg.value = true →
        lift_datasource defs env src preview =
          (none,
            [DatamodelError.functionalEvaluation
              ("A datasource must not use the env() function in the provider argument.")
              src.span])) ∧
      (is_from_env pArg.value = false → as_string_literal pArg.value = none →
        lift_datasource defs env src preview =
          (none,
            [DatamodelError.sourceValidation
              ("The provider argument in a datasource must be a string literal")
              src.name pArg.span])) ∧
      (as_string_literal pArg.value = some ("") →
        lift_datasource defs env src preview =
          (none,
            [DatamodelError.sourceValidation
              ("The provider argument in a datasource must not be empty")
              src.name pArg.span])) ∧
      (∀ (p : String) (uArg : Arg) (u : StringFromEnvVar),
        as_string_literal pArg.value = some p → p ≠ "" →
        args_get src.properties ("url") = some uArg →
        as_str_from_env env uArg = Except.ok u →
        get_datasource_provider defs p = none →
        lift_datasource defs env src preview =
          (none,
            (resolve_shadow_database_url env
              (args_get src.properties ("shadowDatabaseUrl"))).2 ++
              preview_features_guardrail (args_get src.properties) ++
              [DatamodelError.datasourceProviderNotKnown p pArg.span]))) := by
  constructor
  · intro hnone
    simp [lift_datasource, hnone]
  · intro pArg hprov
    refine ⟨?_, ?_, ?_, ?_⟩
    · intro henv
      simp [lift_datasource, hprov, henv]
    · intro hnotenv hnolit
      simp [lift_datasource, hprov, hnotenv, hnolit]
    · intro hempty
      have hnotenv : is_from_env pArg.value = false := is_from_env_false_of_string_literal hempty
      simp [lift_datasource, hprov, hnotenv, hempty]
    · intro p uArg u hlit hne hurl hurlok hreg
      exact lift_datasource_registry_none_shape defs env src preview pArg p uArg u
        hprov hlit hne hurl hurlok hreg

/-- C6 witness: the missing-provider case on a concrete block. -/
theorem lift_datasource_provider_failures_witness :
    lift_datasource demoDefs demoEnv noProviderBlock [] =
      (none, [DatamodelError.sourceArgumentNotFound ("provider") ("db") 9]) :=
  (lift_datasource_provider_failures demoDefs demoEnv noProviderBlock []).1 (by decide)

/-- C7: a `planetScaleMode = true` argument without the PlanetScaleMode
preview feature gives flag false plus exactly one opt-in diagnostic; a
boolean-coercion failure gives the pushed error and flag false; and the
assembled `Datasource` carries exactly the flag this computation returns. -/
theorem planet_scale_mode_gating (preview : List PreviewFeature) (src : SourceConfig) :
    (∀ (args : String → Option Arg) (arg : Arg), args ("planetScaleMode") = some arg →
      ((arg.value = ArgValue.boolVal true →
        preview.contains PreviewFeature.planetScaleMode = false →
        get_planet_scale_mode_arg args preview src =
          (false,
            [DatamodelError.sourceValidation planet_scale_preview_feature_err
              src.name arg.span])) ∧
      (∀ e : DatamodelError, as_bool arg = Except.error e →
        get_planet_scale_mode_arg args preview src = (false, [e])))) ∧
    (∀ (defs : List DatasourceProvider) (env : String → Option String)
      (pArg : Arg) (p : String) (uArg : Arg) (u : StringFromEnvVar)
      (dp : DatasourceProvider),
      args_get src.properties ("provider") = some pArg →
      as_string_literal pArg.value = some p → p ≠ "" →
      args_get src.properties ("url") = some uArg →
      as_str_from_env env uArg = Except.ok u →
      get_datasource_provider defs p = some dp →
      ∃ ds, (lift_datasource defs env src preview).1 = some ds ∧
        ds.planet_scale_mode =
          (get_planet_scale_mode_arg (args_get src.properties) preview src).1) := by
  constructor
  · intro args arg h
    constructor
    · intro hval hpf
      have hpf2 : PreviewFeature.planetScaleMode ∉ preview := by
        simpa [contains_eq_decide_mem] using hpf
      simp [get_planet_scale_mode_arg, h, as_bool, hval, hpf2]
    · intro e herr
      simp [get_planet_scale_mode_arg, h, herr]
  · intro defs env pArg p uArg u dp hprov hlit hne hurl hurlok hreg
    have hs := lift_datasource_success_shape defs env src preview pArg p uArg u dp
      hprov hlit hne hurl hurlok hreg
    refine ⟨{ name := src.name
              provider := p
              active_provider := dp.canonical_name
              url := u
              url_span := uArg.span
              documentation := src.documentation
              active_connector := dp.connector
              shadow_database_url :=
                (resolve_shadow_database_url env
                  (args_get src.properties ("shadowDatabaseUrl"))).1
              planet_scale_mode :=
                (get_planet_scale_mode_arg (args_get src.properties) preview src).1 },
      ?_, rfl⟩
    rw [hs]

/-- C7 witness: `planetScaleMode = true` with no preview features enabled. -/
theorem planet_scale_mode_gating_witness :
    get_planet_scale_mode_arg (args_get psmBlock.properties) [] psmBlock =
      (false,
        [DatamodelError.sourceValidation planet_scale_preview_feature_err ("db") 3]) :=
  (((planet_scale_mode_gating [] psmBlock).1 (args_get psmBlock.properties)
    ⟨"planetScaleMode", ArgValue.boolVal true, 3⟩ (by decide)).1) rfl rfl

/-- C8: a non-empty `previewFeatures` argument always produces the
move-to-generator diagnostic, independently of which features are listed and
of the enabled preview-feature set (the guardrail never consults it); an
empty list produces no diagnostic; and any block that reaches the guardrail
carries its diagnostics in the pushed diagnostics of `lift_datasource`. -/
theorem preview_features_guardrail_spec :
    (∀ (args : String → Option Arg) (arg : Arg) (fs : List String),
      args ("previewFeatures") = some arg →
      to_str_vec arg = Except.ok fs → fs ≠ [] →
      preview_features_guardrail args =
        [DatamodelError.connectorError
          ("Preview features are only supported in the generator block. Please move this field to the generator block.")
          arg.span]) ∧
    (∀ (args : String → Option Arg) (arg : Arg),
      args ("previewFeatures") = some arg → to_str_vec arg = Except.ok [] →
      preview_features_guardrail args = []) ∧
    (∀ args : String → Option Arg,
      args ("previewFeatures") = none → preview_features_guardrail args = []) ∧
    (∀ (defs : List DatasourceProvider) (env : String → Option String)
      (src : SourceConfig) (preview : List PreviewFeature) (pArg : Arg) (p : String)
      (uArg : Arg) (u : StringFromEnvVar),
      args_get src.properties ("provider") = some pArg →
      as_string_literal pArg.value = some p → p ≠ "" →
      args_get src.properties ("url") = some uArg →
      as_str_from_env env uArg = Except.ok u →
      ∃ rest, (lift_datasource defs env src preview).2 =
        (resolve_shadow_database_url env (args_get src.properties ("shadowDatabaseUrl"))).2 ++
          preview_features_guardrail (args_get src.properties) ++ rest) := by
  refine ⟨?_, ?_, ?_, ?_⟩
  · intro args arg fs h hok hne
    have hfe : fs.isEmpty = false := by
      cases fs with
      | nil => exact absurd rfl hne
      | cons a l => rfl
    simp [preview_features_guardrail, h, hok, hfe]
  · intro args arg h hok
    simp [preview_features_guardrail, h, hok]
  · intro args h
    simp [preview_features_guardrail, h]
  · intro defs env src preview pArg p uArg u hprov hlit hne hurl hurlok
    cases hreg : get_datasource_provider defs p with
    | none =>
      have hs := lift_datasource_registry_none_shape defs env src preview pArg p uArg u
        hprov hlit hne hurl hurlok hreg
      exact ⟨_, by rw [hs]⟩
    | some dp =>
      have hs := lift_datasource_success_shape defs env src preview pArg p uArg u dp
        hprov hlit hne hurl hurlok hreg
      exact ⟨_, by rw [hs]⟩

/-- C8 witness: `previewFeatures = ["foo"]` on a datasource block. -/
theorem preview_features_guardrail_spec_witness :
    preview_features_guardrail (args_get pfBlock.properties) =
      [DatamodelError.connectorError
        ("Preview features are only supported in the generator block. Please move this field to the generator block.")
        3] :=
  preview_features_guardrail_spec.1 (args_get pfBlock.properties)
    ⟨"previewFeatures", ArgValue.arrayVal ["foo"], 3⟩ ["foo"] (by decide) rfl (by decide)

end PrismaCore
